import Mathlib

/-!
Verification of the `CatBoostFeatureSelection` transformer
(`src/CatBoostFeatureSelection.py`).

The transformer is a scikit-learn style fit/transform stage.  `fit(X, y)`
delegates to `CatBoostClassifier.select_features` (an external ranker) and
stores the returned column positions in `self.selected_features_indices`;
`transform(X, y=None)` projects a pandas DataFrame onto those positions via
`X.iloc[:, self.selected_features_indices]`.

Embedding choices:
* A pandas `DataFrame` is an ordered list of column names, a list of row
  labels (the index) and row-major integer data.
* Python values that may arrive as `X` or `y` are the inductive `PyObject`;
  the `isinstance(X, pd.DataFrame)` guard becomes a match on its constructors.
* Exceptions become the `Except PyError` monad: `ValueError` for the local
  type guard, `IndexError` for the out-of-bounds check pandas performs inside
  positional `iloc` indexing, and `rankerError` wrapping whatever the external
  ranker raised.
* The external ranker (`select_features`) is a function parameter of `fit`,
  receiving exactly the arguments the source passes and returning either an
  error or a result record whose `selected_features` field holds the chosen
  column positions (nonnegative, as documented by the library).
* Python methods mutate `self`; each embedded method returns the post-state
  explicitly.  The body of `transform` contains no assignment to `self`, so
  its post-state is the unchanged receiver; `fit` returns the updated state.
-/

/-- A pandas DataFrame: named ordered columns, row labels, row-major data. -/
structure DataFrame where
  colNames : List String
  index : List Int
  rows : List (List Int)
deriving DecidableEq, Repr

/-- Number of columns of a DataFrame. -/
def DataFrame.ncols (df : DataFrame) : Nat := df.colNames.length

/-- Column at position `i`: its name together with its values, one per row. -/
def DataFrame.col (df : DataFrame) (i : Nat) : String × List Int :=
  (df.colNames.getD i default, df.rows.map (fun r => r.getD i 0))

/-- Python values that can be passed as the `X` or `y` argument. -/
inductive PyObject where
  | dataframe (df : DataFrame)
  | ndarray (rows : List (List Int))
  | series (vals : List Int)
  | pyNone
deriving DecidableEq, Repr

/-- Exceptions that can escape `fit` or `transform`. -/
inductive PyError where
  | valueError (msg : String)
  | indexError
  | rankerError (msg : String)
deriving DecidableEq, Repr

/-- Message of the `ValueError` raised by the type guard in the source. -/
def invalidInputMsg : String := "X must be a pandas DataFrame"

/-- Embedding of `X.iloc[:, idxs]` for a list of column positions: pandas
first checks every positional indexer against the number of columns and
raises `IndexError` if any is out of bounds; otherwise it returns a new
DataFrame with the columns at those positions in that order (duplicates
allowed), keeping the row index. -/
def DataFrame.ilocCols (df : DataFrame) (idxs : List Nat) :
    Except PyError DataFrame :=
  if idxs.all (fun i => i < df.ncols) then
    .ok { colNames := idxs.map (fun i => df.colNames.getD i default)
        , index := df.index
        , rows := df.rows.map (fun r => idxs.map (fun i => r.getD i 0)) }
  else
    .error .indexError

/-- Arguments the source passes to `CatBoostClassifier.select_features`:
the training data and labels, `features_for_select=X.columns`, the configured
`num_features_to_select`, and the configured `eval_set`. -/
structure RankerArgs where
  X : DataFrame
  y : PyObject
  features_for_select : List String
  num_features_to_select : Nat
  eval_set : Option (PyObject × PyObject)
deriving DecidableEq

/-- Result record of `select_features`; the source reads only its
`selected_features` field, a list of selected column positions. -/
structure RankerResult where
  selected_features : List Nat
deriving DecidableEq, Repr

/-- The external importance ranker: either raises (the `Except.error` case,
carrying the raised exception's description) or returns a result record. -/
abbrev Ranker : Type := RankerArgs → Except String RankerResult

/-- The transformer's state: the configuration set in `__init__` plus the
lifecycle state `selected_features_indices`. -/
structure CatBoostFeatureSelection where
  num_features_to_select : Nat
  selected_features_indices : List Nat
  eval_set : Option (PyObject × PyObject)
deriving DecidableEq, Repr

/-- Embedding of `__init__` (source default for the count is 15): stores the
configuration and sets `selected_features_indices` to the empty list. -/
def CatBoostFeatureSelection.init (num_features_to_select : Nat)
    (eval_set : Option (PyObject × PyObject)) : CatBoostFeatureSelection :=
  { num_features_to_select := num_features_to_select
  , selected_features_indices := []
  , eval_set := eval_set }

/-- Embedding of `transform(X, y=None)`: raise `ValueError` unless `X` is a
DataFrame, then return `X.iloc[:, self.selected_features_indices]`.  The
second component is the post-state of `self`; the method body performs no
assignment, so it is the receiver unchanged.  `y` is never read. -/
def CatBoostFeatureSelection.transform (self : CatBoostFeatureSelection)
    (X : PyObject) (y : PyObject) :
    Except PyError DataFrame × CatBoostFeatureSelection :=
  match X with
  | .dataframe df => (df.ilocCols self.selected_features_indices, self)
  | _ => (.error (.valueError invalidInputMsg), self)

/-- Embedding of `fit(X, y)`: raise `ValueError` unless `X` is a DataFrame,
call the external ranker with the source's arguments, store the returned
`selected_features` in `self.selected_features_indices`, and return `self`.
If the ranker raises, the exception propagates and no state is committed. -/
def CatBoostFeatureSelection.fit (ranker : Ranker)
    (self : CatBoostFeatureSelection) (X : PyObject) (y : PyObject) :
    Except PyError CatBoostFeatureSelection :=
  match X with
  | .dataframe df =>
    match ranker { X := df, y := y, features_for_select := df.colNames
                 , num_features_to_select := self.num_features_to_select
                 , eval_set := self.eval_set } with
    | .ok selected =>
        .ok { self with selected_features_indices := selected.selected_features }
    | .error e => .error (.rankerError e)
  | _ => .error (.valueError invalidInputMsg)

/-- Helper: a duplicate-free list of naturals all below `n` has at most `n`
elements. -/
theorem nodup_bounded_length_le (l : List Nat) (n : Nat)
    (hd : l.Nodup) (hm : ∀ i ∈ l, i < n) : l.length ≤ n := by
  classical
  have hsub : l.toFinset ⊆ Finset.range n := by
    intro i hi
    rw [List.mem_toFinset] at hi
    exact Finset.mem_range.mpr (hm i hi)
  have hcard := Finset.card_le_card hsub
  rwa [List.toFinset_card_of_nodup hd, Finset.card_range] at hcard

/-- C1: for a fitted selector whose selected positions `P` are all valid
column positions of the DataFrame `df`, `transform` succeeds and returns a
new table whose columns are exactly the columns of `df` at positions `P`, in
that order, with the row index kept; the post-state equals the pre-state, so
the Selected Column Set is not mutated (the embedding is pure, so `X` and `y`
are not mutated either). -/
theorem transform_projects_selected
    (s : CatBoostFeatureSelection) (df : DataFrame) (y : PyObject)
    (h : ∀ i ∈ s.selected_features_indices, i < df.ncols) :
    ∃ out : DataFrame,
      s.transform (.dataframe df) y = (.ok out, s) ∧
      out.colNames.length = s.selected_features_indices.length ∧
      out.index = df.index ∧
      ∀ (j : Nat) (hj : j < s.selected_features_indices.length),
        out.col j = df.col (s.selected_features_indices.get ⟨j, hj⟩) := by
  have hall : s.selected_features_indices.all (fun i => decide (i < df.ncols)) = true := by
    rw [List.all_eq_true]
    intro i hi
    exact decide_eq_true (h i hi)
  have heq : s.transform (.dataframe df) y =
      (.ok { colNames := s.selected_features_indices.map (fun i => df.colNames.getD i default)
           , index := df.index
           , rows := df.rows.map
               (fun r => s.selected_features_indices.map (fun i => r.getD i 0)) }, s) := by
    show (DataFrame.ilocCols df s.selected_features_indices, s) = _
    rw [DataFrame.ilocCols, if_pos hall]
  refine ⟨_, heq, by simp, rfl, ?_⟩
  intro j hj
  apply Prod.ext
  · show (List.map (fun i => df.colNames.getD i default) s.selected_features_indices).getD
        j default
        = df.colNames.getD (s.selected_features_indices.get ⟨j, hj⟩) default
    rw [List.getD_eq_getElem _ _ (by simpa using hj), List.getElem_map]
    rfl
  · show List.map (fun r' => r'.getD j 0)
        (List.map (fun r => List.map (fun i => r.getD i 0) s.selected_features_indices) df.rows)
        = List.map (fun r => r.getD (s.selected_features_indices.get ⟨j, hj⟩) 0) df.rows
    rw [List.map_map]
    apply List.map_congr_left
    intro r _
    show (List.map (fun i => r.getD i 0) s.selected_features_indices).getD j 0
        = r.getD (s.selected_features_indices.get ⟨j, hj⟩) 0
    rw [List.getD_eq_getElem _ _ (by simpa using hj), List.getElem_map]
    rfl

/-- Concrete five-column DataFrame used by the witnesses. -/
def dfABCDE : DataFrame :=
  { colNames := ["a", "b", "c", "d", "e"]
  , index := [0, 1]
  , rows := [[1, 2, 3, 4, 5], [6, 7, 8, 9, 10]] }

/-- Selector state after a fit that selected positions 0, 2 and 4. -/
def sFitted : CatBoostFeatureSelection :=
  { num_features_to_select := 3
  , selected_features_indices := [0, 2, 4]
  , eval_set := none }

/-- Witness for C1 at the spec's scenario: columns `[a,b,c,d,e]`, selected
positions `[0,2,4]`. -/
theorem transform_projects_selected_witness :
    (∀ i ∈ sFitted.selected_features_indices, i < dfABCDE.ncols) ∧
    ∃ out : DataFrame,
      sFitted.transform (.dataframe dfABCDE) .pyNone = (.ok out, sFitted) ∧
      out.colNames.length = sFitted.selected_features_indices.length ∧
      out.index = dfABCDE.index ∧
      ∀ (j : Nat) (hj : j < sFitted.selected_features_indices.length),
        out.col j = dfABCDE.col (sFitted.selected_features_indices.get ⟨j, hj⟩) :=
  ⟨by decide, transform_projects_selected sFitted dfABCDE .pyNone (by decide)⟩

/-- C2: on a freshly constructed selector (any configuration), `transform`
of any DataFrame succeeds and returns a table with zero columns, the same
row count and the same row index as the input, because
`selected_features_indices` is initialized to the empty list. -/
theorem transform_before_fit_zero_columns
    (n : Nat) (e : Option (PyObject × PyObject)) (df : DataFrame) (y : PyObject) :
    ∃ out : DataFrame,
      ((CatBoostFeatureSelection.init n e).transform (.dataframe df) y).1 = .ok out ∧
      out.ncols = 0 ∧ out.rows.length = df.rows.length ∧ out.index = df.index := by
  refine ⟨_, rfl, rfl, ?_, rfl⟩
  exact List.length_map _ _

/-- C3: on any input `X` that is not a DataFrame, both `fit` and `transform`
fail with the local `ValueError` type guard (the spec's `InvalidInputType`),
and `fit` does so for every possible external ranker — the guard fires before
the ranker is ever invoked. -/
theorem type_guard_invalid_input
    (ranker : Ranker) (s : CatBoostFeatureSelection) (X y yt : PyObject)
    (h : ∀ df : DataFrame, X ≠ .dataframe df) :
    CatBoostFeatureSelection.fit ranker s X y = .error (.valueError invalidInputMsg) ∧
    (s.transform X yt).1 = .error (.valueError invalidInputMsg) := by
  cases X with
  | dataframe df => exact absurd rfl (h df)
  | ndarray rows => exact ⟨rfl, rfl⟩
  | series vals => exact ⟨rfl, rfl⟩
  | pyNone => exact ⟨rfl, rfl⟩

/-- Stub ranker that always succeeds with an empty selection. -/
def rankerStub : Ranker := fun _ => .ok { selected_features := [] }

/-- Freshly constructed selector with the source's default configuration. -/
def sFresh : CatBoostFeatureSelection := CatBoostFeatureSelection.init 15 none

/-- Witness for C3 at a plain 2D numeric array. -/
theorem type_guard_invalid_input_witness :
    CatBoostFeatureSelection.fit rankerStub sFresh (.ndarray [[1, 2], [3, 4]]) .pyNone
      = .error (.valueError invalidInputMsg) ∧
    (sFresh.transform (.ndarray [[1, 2], [3, 4]]) .pyNone).1
      = .error (.valueError invalidInputMsg) :=
  type_guard_invalid_input rankerStub sFresh (.ndarray [[1, 2], [3, 4]]) .pyNone .pyNone
    (fun df hcon => PyObject.noConfusion hcon)

/-- C4: whenever the external ranker returns successfully, `fit` succeeds and
returns the selector itself with `selected_features_indices` set to exactly
the ranker's `selected_features` — the previous value (whatever it was) is
fully replaced, and the configuration fields are untouched. -/
theorem fit_commits_ranker_output
    (ranker : Ranker) (s : CatBoostFeatureSelection) (df : DataFrame) (y : PyObject)
    (res : RankerResult)
    (h : ranker { X := df, y := y, features_for_select := df.colNames
                , num_features_to_select := s.num_features_to_select
                , eval_set := s.eval_set } = .ok res) :
    CatBoostFeatureSelection.fit ranker s (.dataframe df) y =
      .ok { num_features_to_select := s.num_features_to_select
          , selected_features_indices := res.selected_features
          , eval_set := s.eval_set } := by
  show (match ranker _ with
        | Except.ok selected =>
            Except.ok { s with selected_features_indices := selected.selected_features }
        | Except.error e => Except.error (PyError.rankerError e)) = _
  rw [h]

/-- Constant ranker returning positions 0, 2 and 4. -/
def ranker024 : Ranker := fun _ => .ok { selected_features := [0, 2, 4] }

/-- Witness for C4: a selector holding a stale selection `[1]` is refit and
ends up holding exactly `[0, 2, 4]`. -/
theorem fit_commits_ranker_output_witness :
    CatBoostFeatureSelection.fit ranker024
      { num_features_to_select := 3, selected_features_indices := [1], eval_set := none }
      (.dataframe dfABCDE) .pyNone =
      .ok { num_features_to_select := 3
          , selected_features_indices := [0, 2, 4]
          , eval_set := none } :=
  fit_commits_ranker_output ranker024
    { num_features_to_select := 3, selected_features_indices := [1], eval_set := none }
    dfABCDE .pyNone { selected_features := [0, 2, 4] } rfl

/-- C5: if the ranker honours its contract — an ordered set (duplicate-free)
of positions drawn from the columns of `X`, of length at most the configured
target count — then after a successful `fit` the committed selection has
length at most `num_features_to_select` and at most the number of columns of
`X`. -/
theorem fit_selected_length_bounded
    (ranker : Ranker) (s : CatBoostFeatureSelection) (df : DataFrame) (y : PyObject)
    (res : RankerResult)
    (h : ranker { X := df, y := y, features_for_select := df.colNames
                , num_features_to_select := s.num_features_to_select
                , eval_set := s.eval_set } = .ok res)
    (hnodup : res.selected_features.Nodup)
    (hmem : ∀ i ∈ res.selected_features, i < df.ncols)
    (hlen : res.selected_features.length ≤ s.num_features_to_select) :
    ∃ s' : CatBoostFeatureSelection,
      CatBoostFeatureSelection.fit ranker s (.dataframe df) y = .ok s' ∧
      s'.selected_features_indices.length ≤ s.num_features_to_select ∧
      s'.selected_features_indices.length ≤ df.ncols := by
  refine ⟨_, fit_commits_ranker_output ranker s df y res h, hlen, ?_⟩
  exact nodup_bounded_length_le res.selected_features df.ncols hnodup hmem

/-- Witness for C5: after fitting on the five-column DataFrame with the
ranker returning `[0, 2, 4]`, the selection length 3 is at most the target
count 3 and at most the column count 5. -/
theorem fit_selected_length_bounded_witness :
    ∃ s' : CatBoostFeatureSelection,
      CatBoostFeatureSelection.fit ranker024 (CatBoostFeatureSelection.init 3 none)
        (.dataframe dfABCDE) .pyNone = .ok s' ∧
      s'.selected_features_indices.length ≤ 3 ∧
      s'.selected_features_indices.length ≤ dfABCDE.ncols :=
  fit_selected_length_bounded ranker024 (CatBoostFeatureSelection.init 3 none)
    dfABCDE .pyNone { selected_features := [0, 2, 4] } rfl
    (by decide) (by decide) (by decide)

/-- C6: if some committed position is not a valid column position of the
supplied DataFrame, `transform` fails with the out-of-range index error (the
spec's `ColumnIndexOutOfRange`) instead of truncating, wrapping, or reading
out of bounds. -/
theorem transform_out_of_range_errors
    (s : CatBoostFeatureSelection) (df : DataFrame) (y : PyObject)
    (h : ∃ i ∈ s.selected_features_indices, df.ncols ≤ i) :
    (s.transform (.dataframe df) y).1 = .error .indexError := by
  obtain ⟨i, hi, hge⟩ := h
  show DataFrame.ilocCols df s.selected_features_indices = _
  rw [DataFrame.ilocCols, if_neg]
  intro hall
  rw [List.all_eq_true] at hall
  exact absurd (of_decide_eq_true (hall i hi)) (Nat.not_lt.mpr hge)

/-- Witness for C6: a selection containing position 7 applied to the
five-column DataFrame raises. -/
theorem transform_out_of_range_errors_witness :
    (CatBoostFeatureSelection.transform
      { num_features_to_select := 3, selected_features_indices := [0, 7], eval_set := none }
      (.dataframe dfABCDE) .pyNone).1 = .error .indexError :=
  transform_out_of_range_errors
    { num_features_to_select := 3, selected_features_indices := [0, 7], eval_set := none }
    dfABCDE .pyNone ⟨7, by decide, by decide⟩

/-- C7: if the external ranker raises, `fit` propagates exactly that error —
no retry, no fallback selection, and no committed state (the result is an
error, not a selector). -/
theorem fit_propagates_ranker_error
    (ranker : Ranker) (s : CatBoostFeatureSelection) (df : DataFrame) (y : PyObject)
    (e : String)
    (h : ranker { X := df, y := y, features_for_select := df.colNames
                , num_features_to_select := s.num_features_to_select
                , eval_set := s.eval_set } = .error e) :
    CatBoostFeatureSelection.fit ranker s (.dataframe df) y = .error (.rankerError e) := by
  show (match ranker _ with
        | Except.ok selected =>
            Except.ok { s with selected_features_indices := selected.selected_features }
        | Except.error e => Except.error (PyError.rankerError e)) = _
  rw [h]

/-- Error message used by the failing stub ranker. -/
def rankerFailMsg : String := "num_features_to_select exceeds available columns"

/-- Stub ranker that raises whenever the target count exceeds the number of
candidate columns, as CatBoost does. -/
def rankerStrict : Ranker := fun a =>
  if a.features_for_select.length < a.num_features_to_select then .error rankerFailMsg
  else .ok { selected_features := [] }

/-- Witness for C7: fitting a selector with target count 15 on the
five-column DataFrame makes the strict ranker raise, and `fit` surfaces that
very error. -/
theorem fit_propagates_ranker_error_witness :
    CatBoostFeatureSelection.fit rankerStrict sFresh (.dataframe dfABCDE) .pyNone
      = .error (.rankerError rankerFailMsg) :=
  fit_propagates_ranker_error rankerStrict sFresh dfABCDE .pyNone rankerFailMsg rfl

/-- C8: calling `transform` a second time on the post-state of a first call,
with the same input and no intervening `fit`, produces the identical result
and the identical state: `transform` is deterministic, idempotent under
repetition, and advances no hidden state. -/
theorem transform_idempotent
    (s : CatBoostFeatureSelection) (X y : PyObject) :
    CatBoostFeatureSelection.transform (s.transform X y).2 X y = s.transform X y := by
  cases X <;> rfl

/-- C9: the result of `transform` does not depend on the optional `y`
argument at all — any two values of `y` (including the embedded `None`)
yield identical output and identical post-state. -/
theorem transform_ignores_y
    (s : CatBoostFeatureSelection) (X y1 y2 : PyObject) :
    s.transform X y1 = s.transform X y2 := by
  cases X <;> rfl

/-- C10: whenever `transform` succeeds on a DataFrame, the output table has
the same row labels (index) in the same order and the same row count as the
input, whatever columns are selected. -/
theorem transform_preserves_rows
    (s : CatBoostFeatureSelection) (df : DataFrame) (y : PyObject) (out : DataFrame)
    (h : (s.transform (.dataframe df) y).1 = .ok out) :
    out.index = df.index ∧ out.rows.length = df.rows.length := by
  have h' : DataFrame.ilocCols df s.selected_features_indices = .ok out := h
  rw [DataFrame.ilocCols] at h'
  by_cases hall : s.selected_features_indices.all (fun i => decide (i < df.ncols)) = true
  · rw [if_pos hall] at h'
    obtain rfl := Except.ok.inj h'
    exact ⟨rfl, by simp⟩
  · rw [if_neg hall] at h'
    exact absurd h' (by simp)

/-- Witness for C10: the fitted selector applied to the five-column,
two-row DataFrame keeps its index `[0, 1]` and its two rows. -/
theorem transform_preserves_rows_witness :
    ({ colNames := ["a", "c", "e"], index := [0, 1]
     , rows := [[1, 3, 5], [6, 8, 10]] } : DataFrame).index = dfABCDE.index ∧
    ({ colNames := ["a", "c", "e"], index := [0, 1]
     , rows := [[1, 3, 5], [6, 8, 10]] } : DataFrame).rows.length = dfABCDE.rows.length :=
  transform_preserves_rows sFitted dfABCDE .pyNone
    { colNames := ["a", "c", "e"], index := [0, 1], rows := [[1, 3, 5], [6, 8, 10]] }
    rfl
